import Mathlib

/-!
Verification of the ableton-js chain facade layer (Chain, DrumChain,
ChainMixerDevice) and of the path-addressed remote-property core they
depend on.  The facade classes are embedded from the TypeScript sources;
the core (Request Correlator, Listener Registry) is not present in the
visible sources and is modelled from the specification where needed.
-/

set_option linter.unusedVariables false

namespace AbletonJs

/-- Opaque property payload: numbers, strings, booleans, and arrays of
these, as agreed between host and client. -/
inductive Value where
  | num (n : Int)
  | str (s : String)
  | bool (b : Bool)
  | arr (vs : List Value)

/-- Caller-facing error taxonomy of the core. -/
inductive AblError where
  | timeout
  | transportError (detail : String)
  | protocolError (detail : String)
  | shuttingDown
deriving DecidableEq, Repr

/-- One invocation of the core API surface as performed by a facade method:
a property read or write at a path (with the optional namespace argument the
facades always pass as undefined), or a listener registration keyed by a
string. -/
inductive CoreCall where
  | getProp (path : String) (ns : Option String) (prop : String)
  | setProp (path : String) (ns : Option String) (prop : String) (v : Value)
  | addL (key : String) (cb : Nat)
  | removeL (key : String) (cb : Nat)

/-- The core, seen from a facade method, as an oracle answering each
get/set call with a value or an error. -/
abbrev Core := CoreCall → Except AblError Value

/-- Reference with only an id, as in the raw snapshots. -/
structure IdRef where
  id : Int
deriving DecidableEq, Repr

/-- Reference with id and value, as in the raw mixer snapshots. -/
structure ParamRef where
  id : Int
  value : Int
deriving DecidableEq, Repr

/-- Reference with id and type string, as in the raw devices array. -/
structure DeviceRef where
  id : Int
  type : String
deriving DecidableEq, Repr

/-- RawChain snapshot, embedded from the RawChain interface of chain.ts. -/
structure RawChain where
  id : Int
  name : String
  color : Int
  color_index : Int
  is_auto_colored : Bool
  mute : Bool
  solo : Bool
  devices : List DeviceRef
  mixer_device : IdRef
deriving DecidableEq, Repr

/-- Chain facade state: the stored ableton core reference (an opaque
handle), the raw snapshot, and the API path. -/
structure Chain where
  ableton : Nat
  raw : RawChain
  path : String
deriving DecidableEq, Repr

/-- Chain constructor: stores ableton, raw and path, the path argument
defaulting to the empty string when omitted. -/
def Chain.make (ableton : Nat) (raw : RawChain) (path : Option String) : Chain :=
  ⟨ableton, raw, path.getD ""⟩

/-- Getter id of Chain: returns raw.id, no core call. -/
def Chain.id (c : Chain) : Int :=
  c.raw.id

/-- DeviceParameter wrapper as constructed by the facades: the core
reference and the data returned by the host. -/
structure DeviceParameter where
  ableton : Nat
  raw : Value

/-- Device wrapper as constructed by Chain.getDevice and Chain.getDevices. -/
structure Device where
  ableton : Nat
  raw : Value

/-- Chain.getName: one core getProp at the stored path for property name. -/
def Chain.getName (core : Core) (c : Chain) : Except AblError Value :=
  core (.getProp c.path none "name")

/-- Chain.setName: one core setProp forwarding the argument. -/
def Chain.setName (core : Core) (c : Chain) (name : String) : Except AblError Value :=
  core (.setProp c.path none "name" (.str name))

/-- Chain.getColor: one core getProp for property color. -/
def Chain.getColor (core : Core) (c : Chain) : Except AblError Value :=
  core (.getProp c.path none "color")

/-- Chain.setColor: one core setProp forwarding the argument. -/
def Chain.setColor (core : Core) (c : Chain) (color : Int) : Except AblError Value :=
  core (.setProp c.path none "color" (.num color))

/-- Chain.getColorIndex: one core getProp for property color_index. -/
def Chain.getColorIndex (core : Core) (c : Chain) : Except AblError Value :=
  core (.getProp c.path none "color_index")

/-- Chain.setColorIndex: one core setProp forwarding the argument. -/
def Chain.setColorIndex (core : Core) (c : Chain) (colorIndex : Int) : Except AblError Value :=
  core (.setProp c.path none "color_index" (.num colorIndex))

/-- Chain.getIsAutoColored: one core getProp for property is_auto_colored. -/
def Chain.getIsAutoColored (core : Core) (c : Chain) : Except AblError Value :=
  core (.getProp c.path none "is_auto_colored")

/-- Chain.setIsAutoColored: one core setProp forwarding the argument. -/
def Chain.setIsAutoColored (core : Core) (c : Chain) (autoColored : Bool) : Except AblError Value :=
  core (.setProp c.path none "is_auto_colored" (.bool autoColored))

/-- Chain.getMute: one core getProp for property mute. -/
def Chain.getMute (core : Core) (c : Chain) : Except AblError Value :=
  core (.getProp c.path none "mute")

/-- Chain.setMute: one core setProp forwarding the argument. -/
def Chain.setMute (core : Core) (c : Chain) (mute : Bool) : Except AblError Value :=
  core (.setProp c.path none "mute" (.bool mute))

/-- Chain.getSolo: one core getProp for property solo. -/
def Chain.getSolo (core : Core) (c : Chain) : Except AblError Value :=
  core (.getProp c.path none "solo")

/-- Chain.setSolo: one core setProp forwarding the argument. -/
def Chain.setSolo (core : Core) (c : Chain) (solo : Bool) : Except AblError Value :=
  core (.setProp c.path none "solo" (.bool solo))

/-- Chain.getDevice: one core getProp on the indexed devices node; a
success is wrapped in a new Device, any failure is caught and the method
resolves to null. -/
def Chain.getDevice (core : Core) (c : Chain) (index : Int) :
    Except AblError (Option Device) :=
  match core (.getProp c.path none ("devices " ++ toString index)) with
  | .ok deviceData => .ok (some ⟨c.ableton, deviceData⟩)
  | .error _ => .ok none

/-- Chain.addNameListener: registers through the core under key name. -/
def Chain.addNameListener (c : Chain) (cb : Nat) : CoreCall :=
  .addL "name" cb

/-- Chain.removeNameListener: removes through the core under key name. -/
def Chain.removeNameListener (c : Chain) (cb : Nat) : CoreCall :=
  .removeL "name" cb

/-- Chain.addColorListener: registers through the core under key color. -/
def Chain.addColorListener (c : Chain) (cb : Nat) : CoreCall :=
  .addL "color" cb

/-- Chain.removeColorListener: removes through the core under key color. -/
def Chain.removeColorListener (c : Chain) (cb : Nat) : CoreCall :=
  .removeL "color" cb

/-- JSON object shape produced by Chain.toJSON. -/
structure ChainJSON where
  id : Int
  name : String
  color : Int
  color_index : Int
  is_auto_colored : Bool
  mute : Bool
  solo : Bool
  devices : List DeviceRef
  mixer_device : IdRef
deriving DecidableEq, Repr

/-- Chain.toJSON: builds the JSON object from the stored raw snapshot
only; the core reference is in scope but never consulted. -/
def Chain.toJSON (core : Core) (c : Chain) : ChainJSON :=
  { id := c.raw.id
    name := c.raw.name
    color := c.raw.color
    color_index := c.raw.color_index
    is_auto_colored := c.raw.is_auto_colored
    mute := c.raw.mute
    solo := c.raw.solo
    devices := c.raw.devices
    mixer_device := c.raw.mixer_device }

/-- RawDrumChain snapshot: extends RawChain with the three drum fields. -/
structure RawDrumChain where
  toRawChain : RawChain
  choke_group : Int
  out_of_key : Bool
  auto_select_on_receive : Bool
deriving DecidableEq, Repr

/-- DrumChain facade state, a Chain subclass whose raw snapshot is a
RawDrumChain. -/
structure DrumChain where
  ableton : Nat
  raw : RawDrumChain
  path : String
deriving DecidableEq, Repr

/-- DrumChain constructor: delegates to the Chain constructor, the path
argument defaulting to the empty string when omitted. -/
def DrumChain.make (ableton : Nat) (raw : RawDrumChain) (path : Option String) : DrumChain :=
  ⟨ableton, raw, path.getD ""⟩

/-- View of a DrumChain through its Chain superclass. -/
def DrumChain.toChain (d : DrumChain) : Chain :=
  ⟨d.ableton, d.raw.toRawChain, d.path⟩

/-- DrumChain.getChokeGroup: one core getProp for property choke_group. -/
def DrumChain.getChokeGroup (core : Core) (d : DrumChain) : Except AblError Value :=
  core (.getProp d.path none "choke_group")

/-- DrumChain.setChokeGroup: one core setProp forwarding the argument. -/
def DrumChain.setChokeGroup (core : Core) (d : DrumChain) (chokeGroup : Int) :
    Except AblError Value :=
  core (.setProp d.path none "choke_group" (.num chokeGroup))

/-- DrumChain.getOutOfKey: one core getProp for property out_of_key. -/
def DrumChain.getOutOfKey (core : Core) (d : DrumChain) : Except AblError Value :=
  core (.getProp d.path none "out_of_key")

/-- DrumChain.setOutOfKey: one core setProp forwarding the argument. -/
def DrumChain.setOutOfKey (core : Core) (d : DrumChain) (outOfKey : Bool) :
    Except AblError Value :=
  core (.setProp d.path none "out_of_key" (.bool outOfKey))

/-- DrumChain.getAutoSelectOnReceive: one core getProp for property
auto_select_on_receive. -/
def DrumChain.getAutoSelectOnReceive (core : Core) (d : DrumChain) : Except AblError Value :=
  core (.getProp d.path none "auto_select_on_receive")

/-- DrumChain.setAutoSelectOnReceive: one core setProp forwarding the
argument. -/
def DrumChain.setAutoSelectOnReceive (core : Core) (d : DrumChain) (autoSelect : Bool) :
    Except AblError Value :=
  core (.setProp d.path none "auto_select_on_receive" (.bool autoSelect))

/-- DrumChain.addChokeGroupListener: registers through the core under key
choke_group. -/
def DrumChain.addChokeGroupListener (d : DrumChain) (cb : Nat) : CoreCall :=
  .addL "choke_group" cb

/-- DrumChain.removeChokeGroupListener: removes through the core under key
choke_group. -/
def DrumChain.removeChokeGroupListener (d : DrumChain) (cb : Nat) : CoreCall :=
  .removeL "choke_group" cb

/-- JSON object shape produced by DrumChain.toJSON: the Chain part plus the
three drum fields. -/
structure DrumChainJSON where
  toChainJSON : ChainJSON
  choke_group : Int
  out_of_key : Bool
  auto_select_on_receive : Bool
deriving DecidableEq, Repr

/-- DrumChain.toJSON: spreads the superclass toJSON and adds the three
drum-specific fields from the stored raw snapshot. -/
def DrumChain.toJSON (core : Core) (d : DrumChain) : DrumChainJSON :=
  { toChainJSON := Chain.toJSON core d.toChain
    choke_group := d.raw.choke_group
    out_of_key := d.raw.out_of_key
    auto_select_on_receive := d.raw.auto_select_on_receive }

/-- RawChainMixerDevice snapshot, embedded from chain-mixer-device.ts. -/
structure RawChainMixerDevice where
  id : Int
  canonical_parent : IdRef
  chain_activator : ParamRef
  panning : ParamRef
  sends : List ParamRef
  volume : ParamRef
deriving DecidableEq, Repr

/-- ChainMixerDevice facade state: the stored ableton core reference, the
raw snapshot, and the API path. -/
structure ChainMixerDevice where
  ableton : Nat
  raw : RawChainMixerDevice
  path : String
deriving DecidableEq, Repr

/-- ChainMixerDevice constructor: stores ableton, raw and path, the path
argument defaulting to the empty string when omitted. -/
def ChainMixerDevice.make (ableton : Nat) (raw : RawChainMixerDevice)
    (path : Option String) : ChainMixerDevice :=
  ⟨ableton, raw, path.getD ""⟩

/-- Getter id of ChainMixerDevice: returns raw.id, no core call. -/
def ChainMixerDevice.id (d : ChainMixerDevice) : Int :=
  d.raw.id

/-- ChainMixerDevice.getCanonicalParent: one core getProp, result returned
unchanged. -/
def ChainMixerDevice.getCanonicalParent (core : Core) (d : ChainMixerDevice) :
    Except AblError Value :=
  core (.getProp d.path none "canonical_parent")

/-- ChainMixerDevice.getChainActivator: one core getProp, success wrapped
in a new DeviceParameter, failure propagated unchanged. -/
def ChainMixerDevice.getChainActivator (core : Core) (d : ChainMixerDevice) :
    Except AblError DeviceParameter :=
  (core (.getProp d.path none "chain_activator")).map
    (fun activatorData => ⟨d.ableton, activatorData⟩)

/-- ChainMixerDevice.getPanning: one core getProp, success wrapped
in a new DeviceParameter, failure propagated unchanged. -/
def ChainMixerDevice.getPanning (core : Core) (d : ChainMixerDevice) :
    Except AblError DeviceParameter :=
  (core (.getProp d.path none "panning")).map
    (fun panningData => ⟨d.ableton, panningData⟩)

/-- ChainMixerDevice.getVolume: one core getProp, success wrapped
in a new DeviceParameter, failure propagated unchanged. -/
def ChainMixerDevice.getVolume (core : Core) (d : ChainMixerDevice) :
    Except AblError DeviceParameter :=
  (core (.getProp d.path none "volume")).map
    (fun volumeData => ⟨d.ableton, volumeData⟩)

/-- ChainMixerDevice.getSend: one core getProp on the indexed sends node; a
success is wrapped in a new DeviceParameter, any failure is caught and the
method resolves to null. -/
def ChainMixerDevice.getSend (core : Core) (d : ChainMixerDevice) (index : Int) :
    Except AblError (Option DeviceParameter) :=
  match core (.getProp d.path none ("sends " ++ toString index)) with
  | .ok sendData => .ok (some ⟨d.ableton, sendData⟩)
  | .error _ => .ok none

/-- ChainMixerDevice.addVolumeListener: registers through the core under
key volume. -/
def ChainMixerDevice.addVolumeListener (d : ChainMixerDevice) (cb : Nat) : CoreCall :=
  .addL "volume" cb

/-- ChainMixerDevice.removeVolumeListener: removes through the core under
key volume. -/
def ChainMixerDevice.removeVolumeListener (d : ChainMixerDevice) (cb : Nat) : CoreCall :=
  .removeL "volume" cb

/-- JSON object shape produced by ChainMixerDevice.toJSON. -/
structure ChainMixerDeviceJSON where
  id : Int
  canonical_parent : IdRef
  chain_activator : ParamRef
  panning : ParamRef
  sends : List ParamRef
  volume : ParamRef
deriving DecidableEq, Repr

/-- ChainMixerDevice.toJSON: builds the JSON object from the stored raw
snapshot only; the core reference is in scope but never consulted. -/
def ChainMixerDevice.toJSON (core : Core) (d : ChainMixerDevice) : ChainMixerDeviceJSON :=
  { id := d.raw.id
    canonical_parent := d.raw.canonical_parent
    chain_activator := d.raw.chain_activator
    panning := d.raw.panning
    sends := d.raw.sends
    volume := d.raw.volume }

/-- Modelled from the spec: outcome delivered to a PendingReply — the
Request Correlator itself is not among the visible sources. -/
inductive Outcome where
  | ok (v : Value)
  | err (e : AblError)

/-- Modelled from the spec: the occurrences the router and the timer feed
the Request Correlator — a successful reply, a host-rejection reply, or a
timeout firing, each bearing a correlation id. -/
inductive CorrEvent where
  | reply (cid : Nat) (v : Value)
  | replyErr (cid : Nat) (detail : String)
  | timeoutFire (cid : Nat)

/-- Correlation id carried by a correlator event. -/
def CorrEvent.cid : CorrEvent → Nat
  | .reply c _ => c
  | .replyErr c _ => c
  | .timeoutFire c => c

/-- Modelled from the spec: the Request Correlator's pending map — absent
from the visible sources — reduced to the list of in-flight correlation
ids. -/
structure CorrState where
  pending : List Nat
deriving DecidableEq, Repr

/-- Modelled from the spec: the outcome a correlator event delivers to the
matching caller — the reply value, the host rejection as a ProtocolError
carrying the detail verbatim, or the Timeout failure. -/
def corrOutcome : CorrEvent → Outcome
  | .reply _ v => .ok v
  | .replyErr _ detail => .err (.protocolError detail)
  | .timeoutFire _ => .err .timeout

/-- Modelled from the spec: resolve, fail and timeout handling of the
Request Correlator.  A matching pending entry is removed and exactly one
completion is delivered to its caller; an event whose correlation id has no
pending entry is discarded as a no-op. -/
def corrStep (s : CorrState) (e : CorrEvent) : CorrState × Option (Nat × Outcome) :=
  if e.cid ∈ s.pending then (⟨s.pending.erase e.cid⟩, some (e.cid, corrOutcome e))
  else (s, none)

/-- Modelled from the spec: the correlator processing a whole inbound
trace, collecting in order the completions delivered to callers. -/
def corrRun (s : CorrState) : List CorrEvent → CorrState × List (Nat × Outcome)
  | [] => (s, [])
  | e :: es =>
    let p := corrStep s e
    let q := corrRun p.1 es
    (q.1, p.2.toList ++ q.2)

/-- Modelled from the spec: submit records a pending entry under a
correlation id, refusing an id still pending — the correlation id space is
never reused while a request bearing it is in flight. -/
def corrSubmit (s : CorrState) (c : Nat) : Option CorrState :=
  if c ∈ s.pending then none else some ⟨c :: s.pending⟩

/-- Completions delivered for one correlation id within a completion
trace. -/
def compsFor (c : Nat) (comps : List (Nat × Outcome)) : List (Nat × Outcome) :=
  comps.filter (fun p => p.1 = c)

/-- Modelled from the spec: the state of the mock host that echoes stored
state, keyed by address string. -/
abbrev HostState := String → Option Value

/-- Modelled from the spec: the echoing host processing a set request. -/
def hostSet (h : HostState) (a : String) (v : Value) : HostState :=
  fun b => if b = a then some v else h b

/-- Modelled from the spec: the echoing host's reply to a get request on an
address — the stored value, or a host rejection when nothing is stored. -/
def hostReply (h : HostState) (c : Nat) (a : String) : CorrEvent :=
  match h a with
  | some w => .reply c w
  | none => .replyErr c "no such property"

/-- Modelled from the spec: a sequential setProp followed by getProp
through the correlator against the echoing host.  The set request is
submitted, the host stores the value and its acknowledgement resolves the
set; the get request is then submitted and the host's reply for the stored
state is routed back; the result is the completion the get caller
receives. -/
def seqSetGet (h : HostState) (a : String) (v : Value) : Option (Nat × Outcome) :=
  match corrSubmit ⟨[]⟩ 1 with
  | none => none
  | some s1 =>
    let h1 := hostSet h a v
    let p1 := corrStep s1 (.reply 1 (.bool true))
    match corrSubmit p1.1 2 with
    | none => none
    | some s2 => (corrStep s2 (hostReply h1 2 a)).2

/-- Modelled from the spec: the Listener Registry's subscription map —
absent from the visible sources — as the list of currently registered
(address, callback handle) pairs. -/
structure RegState where
  subs : List (String × Nat)
deriving DecidableEq, Repr

/-- Modelled from the spec: side-channel notification-control requests the
registry issues through the correlator. -/
inductive NotifyReq where
  | enable (address : String)
  | disable (address : String)
deriving DecidableEq, Repr

/-- Number of subscriptions currently registered for one address. -/
def subCount (a : String) (subs : List (String × Nat)) : Nat :=
  (subs.filter (fun p => p.1 = a)).length

/-- Modelled from the spec: addListener registers the callback under the
address and issues an enable-notifications request exactly when it is the
first subscription for that address. -/
def regAdd (s : RegState) (a : String) (cb : Nat) : RegState × List NotifyReq :=
  if subCount a s.subs = 0 then (⟨(a, cb) :: s.subs⟩, [.enable a])
  else (⟨(a, cb) :: s.subs⟩, [])

/-- Modelled from the spec: removeListener deregisters the handle and
issues a disable-notifications request exactly when it removed the last
subscription for that address; an unregistered handle is a no-op. -/
def regRemove (s : RegState) (a : String) (cb : Nat) : RegState × List NotifyReq :=
  if (a, cb) ∈ s.subs then
    let subs2 := s.subs.erase (a, cb)
    if subCount a subs2 = 0 then (⟨subs2⟩, [.disable a]) else (⟨subs2⟩, [])
  else (s, [])

/-- Concrete raw chain snapshot used for concrete instantiations. -/
def rawChainA : RawChain :=
  ⟨1, "A", 0, 0, false, false, false, [], ⟨10⟩⟩

/-- Chain facade at the path of track 0 chain 0. -/
def chainA : Chain :=
  ⟨0, rawChainA, "live_set tracks 0 chains 0"⟩

/-- Chain facade at the path of track 1 chain 2. -/
def chainB : Chain :=
  ⟨0, rawChainA, "live_set tracks 1 chains 2"⟩

/-- Concrete raw mixer snapshot used for concrete instantiations. -/
def rawMixerA : RawChainMixerDevice :=
  ⟨2, ⟨1⟩, ⟨3, 1⟩, ⟨4, 0⟩, [], ⟨5, 100⟩⟩

/-- ChainMixerDevice facade at a concrete mixer path. -/
def mixerA : ChainMixerDevice :=
  ⟨0, rawMixerA, "live_set tracks 0 chains 0 mixer_device"⟩

/-- Concrete raw drum chain snapshot used for concrete instantiations. -/
def rawDrumA : RawDrumChain :=
  ⟨rawChainA, 3, false, true⟩

/-- DrumChain facade at a concrete path. -/
def drumA : DrumChain :=
  ⟨0, rawDrumA, "live_set tracks 0 chains 0"⟩

/-- Core oracle failing every call with Timeout. -/
def timeoutCore : Core :=
  fun _ => .error AblError.timeout

/-- Core oracle answering every call with a fixed number. -/
def constCore : Core :=
  fun _ => .ok (.num 42)

/-- Concrete reply trace delivering the two replies in reversed order. -/
def traceA : List CorrEvent :=
  [.reply 2 (.num 5), .reply 1 (.num 7)]

/-- Unfolding of corrRun on a cons trace. -/
theorem corrRun_cons (s : CorrState) (e : CorrEvent) (es : List CorrEvent) :
    corrRun s (e :: es) =
      ((corrRun (corrStep s e).1 es).1,
        (corrStep s e).2.toList ++ (corrRun (corrStep s e).1 es).2) :=
  rfl

/-- Stepping on a pending correlation id removes the entry and delivers the
completion. -/
theorem corrStep_of_pending {s : CorrState} {e : CorrEvent} (h : e.cid ∈ s.pending) :
    corrStep s e = (⟨s.pending.erase e.cid⟩, some (e.cid, corrOutcome e)) := by
  simp [corrStep, h]

/-- Stepping on a non-pending correlation id is a no-op. -/
theorem corrStep_of_not_pending {s : CorrState} {e : CorrEvent} (h : e.cid ∉ s.pending) :
    corrStep s e = (s, none) := by
  simp [corrStep, h]

/-- A correlation id pending after a step was pending before it. -/
theorem corrStep_pending_subset {s : CorrState} {e : CorrEvent} {c : Nat}
    (h : c ∈ (corrStep s e).1.pending) : c ∈ s.pending := by
  by_cases hm : e.cid ∈ s.pending
  · rw [corrStep_of_pending hm] at h
    exact List.mem_of_mem_erase h
  · rwa [corrStep_of_not_pending hm] at h

/-- Stepping preserves distinctness of the pending ids. -/
theorem corrStep_nodup {s : CorrState} {e : CorrEvent} (h : s.pending.Nodup) :
    (corrStep s e).1.pending.Nodup := by
  by_cases hm : e.cid ∈ s.pending
  · rw [corrStep_of_pending hm]
    exact h.erase e.cid
  · rwa [corrStep_of_not_pending hm]

/-- Completion filtering distributes over appended completion traces. -/
theorem compsFor_append (c : Nat) (xs ys : List (Nat × Outcome)) :
    compsFor c (xs ++ ys) = compsFor c xs ++ compsFor c ys := by
  simp [compsFor]

/-- A correlation id that is not pending receives no completion over any
trace. -/
theorem corrRun_compsFor_of_not_pending {c : Nat} {tr : List CorrEvent} {s : CorrState}
    (h : c ∉ s.pending) : compsFor c (corrRun s tr).2 = [] := by
  induction tr generalizing s with
  | nil => simp [corrRun, compsFor]
  | cons e es ih =>
    have hstep : c ∉ (corrStep s e).1.pending := fun hc => h (corrStep_pending_subset hc)
    rw [corrRun_cons, compsFor_append, ih hstep]
    by_cases hm : e.cid ∈ s.pending
    · have hne : e.cid ≠ c := fun hEq => h (hEq ▸ hm)
      rw [corrStep_of_pending hm]
      simp [compsFor, hne]
    · rw [corrStep_of_not_pending hm]
      simp [compsFor]

/-- A correlation id with no event in the trace receives no completion. -/
theorem corrRun_compsFor_of_no_event {c : Nat} {tr : List CorrEvent} {s : CorrState}
    (h : ∀ e ∈ tr, CorrEvent.cid e ≠ c) : compsFor c (corrRun s tr).2 = [] := by
  induction tr generalizing s with
  | nil => simp [corrRun, compsFor]
  | cons e es ih =>
    have hne : e.cid ≠ c := h e (List.mem_cons_self e es)
    have h2 : ∀ e2 ∈ es, CorrEvent.cid e2 ≠ c := fun e2 hm => h e2 (List.mem_cons_of_mem e hm)
    rw [corrRun_cons, compsFor_append, ih h2]
    by_cases hm : e.cid ∈ s.pending
    · rw [corrStep_of_pending hm]
      simp [compsFor, hne]
    · rw [corrStep_of_not_pending hm]
      simp [compsFor]

/-- A pending correlation id receiving some event is completed exactly
once over the trace. -/
theorem corrRun_compsFor_of_pending {c : Nat} {tr : List CorrEvent} {s : CorrState}
    (hnd : s.pending.Nodup) (hc : c ∈ s.pending)
    (hev : ∃ e ∈ tr, CorrEvent.cid e = c) :
    (compsFor c (corrRun s tr).2).length = 1 := by
  induction tr generalizing s with
  | nil => simp at hev
  | cons e es ih =>
    by_cases he : e.cid = c
    · subst he
      have hm : e.cid ∈ s.pending := hc
      have hout : e.cid ∉ (corrStep s e).1.pending := by
        rw [corrStep_of_pending hm]
        exact hnd.not_mem_erase
      rw [corrRun_cons, compsFor_append, corrRun_compsFor_of_not_pending hout,
          corrStep_of_pending hm]
      simp [compsFor]
    · have hc2 : c ∈ (corrStep s e).1.pending := by
        by_cases hm : e.cid ∈ s.pending
        · rw [corrStep_of_pending hm]
          exact (List.mem_erase_of_ne (fun hEq => he hEq.symm)).2 hc
        · rwa [corrStep_of_not_pending hm]
      have hev2 : ∃ e2 ∈ es, CorrEvent.cid e2 = c := by
        obtain ⟨e0, he0, hcid⟩ := hev
        rcases List.mem_cons.mp he0 with rfl | hmem
        · exact absurd hcid he
        · exact ⟨e0, hmem, hcid⟩
      have htail := ih (corrStep_nodup hnd) hc2 hev2
      rw [corrRun_cons, compsFor_append]
      by_cases hm : e.cid ∈ s.pending
      · rw [corrStep_of_pending hm] at htail ⊢
        simpa [compsFor, he] using htail
      · rw [corrStep_of_not_pending hm] at htail ⊢
        simpa [compsFor] using htail

/-- With distinct pending ids, a correlation id is completed at most once
over any trace. -/
theorem corrRun_compsFor_le_one {c : Nat} {tr : List CorrEvent} {s : CorrState}
    (hnd : s.pending.Nodup) : (compsFor c (corrRun s tr).2).length ≤ 1 := by
  by_cases hc : c ∈ s.pending
  · by_cases hev : ∃ e ∈ tr, CorrEvent.cid e = c
    · exact le_of_eq (corrRun_compsFor_of_pending hnd hc hev)
    · push_neg at hev
      simp [corrRun_compsFor_of_no_event hev]
  · simp [corrRun_compsFor_of_not_pending hc]

/-- A successful completion for a correlation id can only come from a
reply event bearing that id and that value. -/
theorem corrRun_ok_from_reply {c : Nat} {v : Value} {tr : List CorrEvent} {s : CorrState}
    (h : (c, Outcome.ok v) ∈ (corrRun s tr).2) : CorrEvent.reply c v ∈ tr := by
  induction tr generalizing s with
  | nil => simp [corrRun] at h
  | cons e es ih =>
    rw [corrRun_cons] at h
    rcases List.mem_append.mp h with hhead | htail
    · by_cases hm : e.cid ∈ s.pending
      · rw [corrStep_of_pending hm] at hhead
        simp only [Option.toList_some, List.mem_singleton, Prod.mk.injEq] at hhead
        obtain ⟨h1, h2⟩ := hhead
        cases e with
        | reply c2 v2 =>
          simp only [CorrEvent.cid] at h1
          simp only [corrOutcome, Outcome.ok.injEq] at h2
          subst h1
          subst h2
          exact List.mem_cons_self _ _
        | replyErr c2 detail => simp [corrOutcome] at h2
        | timeoutFire c2 => simp [corrOutcome] at h2
      · rw [corrStep_of_not_pending hm] at hhead
        simp at hhead
    · exact List.mem_cons_of_mem e (ih htail)

/-- Claim C1: with pairwise-distinct pending correlation ids, each request
is completed at most once over any reply and timeout trace, however the
transport reorders or duplicates it; it is completed exactly once as soon
as some reply or timeout bearing its id occurs; a successful result always
carries the value of the reply bearing that request's own correlation id,
so no two requests' results are swapped; and any event whose correlation
id is no longer pending is a no-op on the correlator. -/
theorem c1_correlator_exactly_once_no_swap (s : CorrState) (tr : List CorrEvent)
    (c : Nat) (hnd : s.pending.Nodup) :
    (compsFor c (corrRun s tr).2).length ≤ 1
    ∧ (c ∈ s.pending → (∃ e ∈ tr, CorrEvent.cid e = c) →
        (compsFor c (corrRun s tr).2).length = 1)
    ∧ (∀ v : Value, (c, Outcome.ok v) ∈ (corrRun s tr).2 → CorrEvent.reply c v ∈ tr)
    ∧ (∀ e : CorrEvent, CorrEvent.cid e ∉ s.pending → corrStep s e = (s, none)) :=
  ⟨corrRun_compsFor_le_one hnd,
   fun hc hev => corrRun_compsFor_of_pending hnd hc hev,
   fun _ h => corrRun_ok_from_reply h,
   fun _ h => corrStep_of_not_pending h⟩

/-- Witness for Claim C1 at a concrete instance: two pending requests whose
replies arrive in reversed order. -/
theorem c1_correlator_exactly_once_no_swap_witness :
    (compsFor 1 (corrRun ⟨[1, 2]⟩ traceA).2).length ≤ 1
    ∧ ((1 : Nat) ∈ (⟨[1, 2]⟩ : CorrState).pending →
        (∃ e ∈ traceA, CorrEvent.cid e = 1) →
        (compsFor 1 (corrRun ⟨[1, 2]⟩ traceA).2).length = 1)
    ∧ (∀ v : Value, (1, Outcome.ok v) ∈ (corrRun ⟨[1, 2]⟩ traceA).2 →
        CorrEvent.reply 1 v ∈ traceA)
    ∧ (∀ e : CorrEvent, CorrEvent.cid e ∉ (⟨[1, 2]⟩ : CorrState).pending →
        corrStep ⟨[1, 2]⟩ e = (⟨[1, 2]⟩, none)) :=
  c1_correlator_exactly_once_no_swap ⟨[1, 2]⟩ traceA 1 (by decide)

/-- Claim C3: a timeout firing on a pending request delivers exactly the
Timeout failure to that caller, removes the pending entry, and leaves the
correlation id free for a subsequent submit to reuse. -/
theorem c3_timeout_fails_and_frees_id (s : CorrState) (c : Nat)
    (hc : c ∈ s.pending) (hnd : s.pending.Nodup) :
    (corrStep s (CorrEvent.timeoutFire c)).2 = some (c, Outcome.err AblError.timeout)
    ∧ c ∉ (corrStep s (CorrEvent.timeoutFire c)).1.pending
    ∧ (corrSubmit (corrStep s (CorrEvent.timeoutFire c)).1 c).isSome = true := by
  have hm : (CorrEvent.timeoutFire c).cid ∈ s.pending := hc
  rw [corrStep_of_pending hm]
  simp only [CorrEvent.cid]
  refine ⟨rfl, hnd.not_mem_erase, ?_⟩
  simp [corrSubmit, hnd.not_mem_erase]

/-- Witness for Claim C3 at a concrete instance: a single pending request
timing out. -/
theorem c3_timeout_fails_and_frees_id_witness :
    (corrStep ⟨[3]⟩ (CorrEvent.timeoutFire 3)).2 = some (3, Outcome.err AblError.timeout)
    ∧ (3 : Nat) ∉ (corrStep ⟨[3]⟩ (CorrEvent.timeoutFire 3)).1.pending
    ∧ (corrSubmit (corrStep ⟨[3]⟩ (CorrEvent.timeoutFire 3)).1 3).isSome = true :=
  c3_timeout_fails_and_frees_id ⟨[3]⟩ 3 (by decide) (by decide)

/-- Claim C2: a sequential setProp of value v at address a followed by a
getProp of a, both routed through the correlator against the mock host that
echoes stored state, resolves the get to exactly v. -/
theorem c2_set_then_get_roundtrip (h : HostState) (a : String) (v : Value) :
    seqSetGet h a v = some (2, Outcome.ok v) := by
  simp [seqSetGet, corrSubmit, corrStep, hostSet, hostReply, CorrEvent.cid, corrOutcome]

/-- Unfolding of the per-address subscription count over a cons. -/
theorem subCount_cons (a : String) (x : String × Nat) (l : List (String × Nat)) :
    subCount a (x :: l) = (if x.1 = a then 1 else 0) + subCount a l := by
  by_cases hx : x.1 = a
  · simp [subCount, hx, List.filter_cons]
    omega
  · simp [subCount, hx, List.filter_cons]

/-- A registered handle makes the subscription count of its address
positive. -/
theorem subCount_pos_of_mem {a : String} {cb : Nat} {l : List (String × Nat)}
    (h : (a, cb) ∈ l) : 0 < subCount a l := by
  induction l with
  | nil => simp at h
  | cons x xs ih =>
    rw [subCount_cons]
    rcases List.mem_cons.mp h with rfl | hm
    · simp
    · have := ih hm
      omega

/-- Erasing a registered handle lowers its address's subscription count by
exactly one. -/
theorem subCount_erase {a : String} {cb : Nat} {l : List (String × Nat)}
    (h : (a, cb) ∈ l) :
    subCount a (l.erase (a, cb)) = subCount a l - 1 := by
  induction l with
  | nil => simp at h
  | cons x xs ih =>
    by_cases hx : x = (a, cb)
    · subst hx
      rw [List.erase_cons_head, subCount_cons]
      simp
    · have hm : (a, cb) ∈ xs := by
        rcases List.mem_cons.mp h with h1 | h2
        · exact absurd h1.symm hx
        · exact h2
      rw [List.erase_cons_tail (by simpa using hx), subCount_cons, subCount_cons,
          ih hm]
      have := subCount_pos_of_mem hm
      omega

/-- Claim C7: over any add or remove of a listener for an address, the
notification-control requests are issued exactly at the subscription-count
edges — an add while the count is zero issues exactly one enable request
and brings the count to one, an add while the count is positive issues
none, removing a registered handle while the count is one issues exactly
one disable request and brings the count to zero, removing a registered
handle while the count is larger issues none, and removing an unregistered
handle is a no-op issuing none. -/
theorem c7_notification_edges (s : RegState) (a : String) (cb : Nat) :
    (subCount a s.subs = 0 →
      regAdd s a cb = (⟨(a, cb) :: s.subs⟩, [NotifyReq.enable a])
      ∧ subCount a (regAdd s a cb).1.subs = 1)
    ∧ (0 < subCount a s.subs →
      (regAdd s a cb).2 = []
      ∧ subCount a (regAdd s a cb).1.subs = subCount a s.subs + 1)
    ∧ ((a, cb) ∈ s.subs → subCount a s.subs = 1 →
      (regRemove s a cb).2 = [NotifyReq.disable a]
      ∧ subCount a (regRemove s a cb).1.subs = 0)
    ∧ ((a, cb) ∈ s.subs → 1 < subCount a s.subs → (regRemove s a cb).2 = [])
    ∧ ((a, cb) ∉ s.subs → regRemove s a cb = (s, [])) := by
  refine ⟨fun h0 => ?_, fun hpos => ?_, fun hmem h1 => ?_, fun hmem h2 => ?_, fun hno => ?_⟩
  · constructor
    · simp [regAdd, h0]
    · simp [regAdd, h0, subCount_cons]
  · have hne : subCount a s.subs ≠ 0 := by omega
    constructor
    · simp [regAdd, hne]
    · simp [regAdd, hne, subCount_cons]
      omega
  · have hz : subCount a (s.subs.erase (a, cb)) = 0 := by
      rw [subCount_erase hmem, h1]
    constructor
    · simp [regRemove, hmem, hz]
    · simp [regRemove, hmem, hz]
  · have hz : subCount a (s.subs.erase (a, cb)) ≠ 0 := by
      rw [subCount_erase hmem]
      omega
    simp [regRemove, hmem, hz]
  · simp [regRemove, hno]

/-- Witness for Claim C7 at concrete instances covering all five edges. -/
theorem c7_notification_edges_witness :
    regAdd ⟨[]⟩ "volume" 7 = (⟨[("volume", 7)]⟩, [NotifyReq.enable "volume"])
    ∧ (regAdd ⟨[("volume", 7)]⟩ "volume" 8).2 = []
    ∧ (regRemove ⟨[("volume", 7)]⟩ "volume" 7).2 = [NotifyReq.disable "volume"]
    ∧ (regRemove ⟨[("volume", 7), ("volume", 8)]⟩ "volume" 7).2 = []
    ∧ regRemove ⟨[("volume", 7)]⟩ "name" 9 = (⟨[("volume", 7)]⟩, []) :=
  ⟨((c7_notification_edges ⟨[]⟩ "volume" 7).1 (by decide)).1,
   ((c7_notification_edges ⟨[("volume", 7)]⟩ "volume" 8).2.1 (by decide)).1,
   ((c7_notification_edges ⟨[("volume", 7)]⟩ "volume" 7).2.2.1 (by decide) (by decide)).1,
   (c7_notification_edges ⟨[("volume", 7), ("volume", 8)]⟩ "volume" 7).2.2.2.1
     (by decide) (by decide),
   (c7_notification_edges ⟨[("volume", 7)]⟩ "name" 9).2.2.2.2 (by decide)⟩

/-- Counterexample to Claim C4: two Chain facades with different stored
paths register their name listeners under the very same core key, and that
key is the bare property name, not an address under the facade's path. -/
theorem c4_counterexample_flat_listener_keys :
    chainA.path ≠ chainB.path
    ∧ Chain.addNameListener chainA 5 = Chain.addNameListener chainB 5
    ∧ Chain.addNameListener chainA 5 = CoreCall.addL "name" 5 := by
  refine ⟨by decide, rfl, rfl⟩

/-- Claim C4 as amended: the key each facade listener method passes to the
core addListener and removeListener is the bare observed property name,
independent of the facade's stored path, so facade instances with
different paths use the same key. -/
theorem c4_amended_listener_keys_are_bare_names (c c2 : Chain) (d : DrumChain)
    (m : ChainMixerDevice) (cb : Nat) :
    Chain.addNameListener c cb = CoreCall.addL "name" cb
    ∧ Chain.removeNameListener c cb = CoreCall.removeL "name" cb
    ∧ DrumChain.addChokeGroupListener d cb = CoreCall.addL "choke_group" cb
    ∧ DrumChain.removeChokeGroupListener d cb = CoreCall.removeL "choke_group" cb
    ∧ ChainMixerDevice.addVolumeListener m cb = CoreCall.addL "volume" cb
    ∧ ChainMixerDevice.removeVolumeListener m cb = CoreCall.removeL "volume" cb
    ∧ Chain.addNameListener c cb = Chain.addNameListener c2 cb :=
  ⟨rfl, rfl, rfl, rfl, rfl, rfl, rfl⟩

/-- Counterexample to Claim C5: ChainMixerDevice.getSend performs a core
getProp that fails with Timeout, yet its own caller sees no error — the
operation resolves to null instead of reporting the Timeout. -/
theorem c5_counterexample_getSend_swallows_error :
    ChainMixerDevice.getSend timeoutCore mixerA 0 ≠ Except.error AblError.timeout
    ∧ ChainMixerDevice.getSend timeoutCore mixerA 0 = Except.ok none := by
  constructor
  · intro h
    simp [ChainMixerDevice.getSend, timeoutCore] at h
  · rfl

/-- Claim C5 as amended: when a core call fails with one of the four
caller-facing error kinds, every embedded facade operation other than
Chain.getDevice and ChainMixerDevice.getSend reports exactly that error,
unchanged, to its own caller; those two catch the failure and resolve to
null; and a failing reply resolves only its own pending entry in the
correlator, leaving every other pending request pending. -/
theorem c5_amended_error_propagation (e : AblError) (core : Core)
    (hcore : ∀ call : CoreCall, core call = .error e)
    (c : Chain) (d : DrumChain) (m : ChainMixerDevice) (nm : String) (i : Int) :
    Chain.getName core c = .error e
    ∧ Chain.setName core c nm = .error e
    ∧ Chain.getColor core c = .error e
    ∧ Chain.getMute core c = .error e
    ∧ Chain.getSolo core c = .error e
    ∧ DrumChain.getChokeGroup core d = .error e
    ∧ DrumChain.getOutOfKey core d = .error e
    ∧ DrumChain.getAutoSelectOnReceive core d = .error e
    ∧ ChainMixerDevice.getCanonicalParent core m = .error e
    ∧ ChainMixerDevice.getChainActivator core m = .error e
    ∧ ChainMixerDevice.getPanning core m = .error e
    ∧ ChainMixerDevice.getVolume core m = .error e
    ∧ Chain.getDevice core c i = .ok none
    ∧ ChainMixerDevice.getSend core m i = .ok none
    ∧ (∀ (s : CorrState) (cid c2 : Nat) (detail : String),
        c2 ∈ s.pending → c2 ≠ cid →
        c2 ∈ (corrStep s (CorrEvent.replyErr cid detail)).1.pending) := by
  refine ⟨hcore _, hcore _, hcore _, hcore _, hcore _, hcore _, hcore _, hcore _, hcore _,
    ?_, ?_, ?_, ?_, ?_, ?_⟩
  · simp [ChainMixerDevice.getChainActivator, hcore, Except.map]
  · simp [ChainMixerDevice.getPanning, hcore, Except.map]
  · simp [ChainMixerDevice.getVolume, hcore, Except.map]
  · simp [Chain.getDevice, hcore]
  · simp [ChainMixerDevice.getSend, hcore]
  · intro s cid c2 detail hc2 hne
    by_cases hm : (CorrEvent.replyErr cid detail).cid ∈ s.pending
    · rw [corrStep_of_pending hm]
      simp only [CorrEvent.cid]
      exact (List.mem_erase_of_ne hne).2 hc2
    · rwa [corrStep_of_not_pending hm]

/-- Witness for Claim C5 as amended, at the core oracle failing every call
with Timeout and concrete facade instances. -/
theorem c5_amended_error_propagation_witness :
    Chain.getName timeoutCore chainA = .error AblError.timeout
    ∧ Chain.setName timeoutCore chainA "x" = .error AblError.timeout
    ∧ Chain.getColor timeoutCore chainA = .error AblError.timeout
    ∧ Chain.getMute timeoutCore chainA = .error AblError.timeout
    ∧ Chain.getSolo timeoutCore chainA = .error AblError.timeout
    ∧ DrumChain.getChokeGroup timeoutCore drumA = .error AblError.timeout
    ∧ DrumChain.getOutOfKey timeoutCore drumA = .error AblError.timeout
    ∧ DrumChain.getAutoSelectOnReceive timeoutCore drumA = .error AblError.timeout
    ∧ ChainMixerDevice.getCanonicalParent timeoutCore mixerA = .error AblError.timeout
    ∧ ChainMixerDevice.getChainActivator timeoutCore mixerA = .error AblError.timeout
    ∧ ChainMixerDevice.getPanning timeoutCore mixerA = .error AblError.timeout
    ∧ ChainMixerDevice.getVolume timeoutCore mixerA = .error AblError.timeout
    ∧ Chain.getDevice timeoutCore chainA 0 = .ok none
    ∧ ChainMixerDevice.getSend timeoutCore mixerA 0 = .ok none
    ∧ (∀ (s : CorrState) (cid c2 : Nat) (detail : String),
        c2 ∈ s.pending → c2 ≠ cid →
        c2 ∈ (corrStep s (CorrEvent.replyErr cid detail)).1.pending) :=
  c5_amended_error_propagation AblError.timeout timeoutCore (fun _ => rfl)
    chainA drumA mixerA "x" 0

/-- Claim C6: every scalar property getter on Chain and DrumChain is
exactly one core getProp at the facade's stored path naming the property,
resolving to the core's result unchanged, and every scalar setter is
exactly one core setProp at the stored path forwarding its argument
unchanged. -/
theorem c6_scalar_accessors_delegate (core : Core) (c : Chain) (d : DrumChain)
    (nm : String) (n k cg : Int) (b u w g asr : Bool) :
    Chain.getName core c = core (.getProp c.path none "name")
    ∧ Chain.setName core c nm = core (.setProp c.path none "name" (.str nm))
    ∧ Chain.getColor core c = core (.getProp c.path none "color")
    ∧ Chain.setColor core c n = core (.setProp c.path none "color" (.num n))
    ∧ Chain.getColorIndex core c = core (.getProp c.path none "color_index")
    ∧ Chain.setColorIndex core c k = core (.setProp c.path none "color_index" (.num k))
    ∧ Chain.getIsAutoColored core c = core (.getProp c.path none "is_auto_colored")
    ∧ Chain.setIsAutoColored core c b
        = core (.setProp c.path none "is_auto_colored" (.bool b))
    ∧ Chain.getMute core c = core (.getProp c.path none "mute")
    ∧ Chain.setMute core c u = core (.setProp c.path none "mute" (.bool u))
    ∧ Chain.getSolo core c = core (.getProp c.path none "solo")
    ∧ Chain.setSolo core c w = core (.setProp c.path none "solo" (.bool w))
    ∧ DrumChain.getChokeGroup core d = core (.getProp d.path none "choke_group")
    ∧ DrumChain.setChokeGroup core d cg
        = core (.setProp d.path none "choke_group" (.num cg))
    ∧ DrumChain.getOutOfKey core d = core (.getProp d.path none "out_of_key")
    ∧ DrumChain.setOutOfKey core d g = core (.setProp d.path none "out_of_key" (.bool g))
    ∧ DrumChain.getAutoSelectOnReceive core d
        = core (.getProp d.path none "auto_select_on_receive")
    ∧ DrumChain.setAutoSelectOnReceive core d asr
        = core (.setProp d.path none "auto_select_on_receive" (.bool asr)) :=
  ⟨rfl, rfl, rfl, rfl, rfl, rfl, rfl, rfl, rfl, rfl, rfl, rfl, rfl, rfl, rfl, rfl, rfl,
   rfl⟩

/-- Claim C8: ChainMixerDevice.getSend and Chain.getDevice never reject —
any failure of the underlying core getProp is caught and the method
resolves to null, while a core success resolves to a newly constructed
wrapper around the returned data. -/
theorem c8_getSend_getDevice_never_reject (core : Core) (c : Chain)
    (m : ChainMixerDevice) (i : Int) :
    (∀ e : AblError, core (.getProp m.path none ("sends " ++ toString i)) = .error e →
      ChainMixerDevice.getSend core m i = .ok none)
    ∧ (∀ v : Value, core (.getProp m.path none ("sends " ++ toString i)) = .ok v →
      ChainMixerDevice.getSend core m i = .ok (some ⟨m.ableton, v⟩))
    ∧ (∀ e : AblError, core (.getProp c.path none ("devices " ++ toString i)) = .error e →
      Chain.getDevice core c i = .ok none)
    ∧ (∀ v : Value, core (.getProp c.path none ("devices " ++ toString i)) = .ok v →
      Chain.getDevice core c i = .ok (some ⟨c.ableton, v⟩))
    ∧ (∃ o, ChainMixerDevice.getSend core m i = .ok o)
    ∧ (∃ o, Chain.getDevice core c i = .ok o) := by
  refine ⟨fun e he => ?_, fun v hv => ?_, fun e he => ?_, fun v hv => ?_, ?_, ?_⟩
  · simp [ChainMixerDevice.getSend, he]
  · simp [ChainMixerDevice.getSend, hv]
  · simp [Chain.getDevice, he]
  · simp [Chain.getDevice, hv]
  · unfold ChainMixerDevice.getSend
    cases core (.getProp m.path none ("sends " ++ toString i)) <;> simp
  · unfold Chain.getDevice
    cases core (.getProp c.path none ("devices " ++ toString i)) <;> simp

/-- Witness for Claim C8 at concrete oracles: a failing core yields null,
a succeeding core yields the wrapped data. -/
theorem c8_getSend_getDevice_never_reject_witness :
    ChainMixerDevice.getSend timeoutCore mixerA 0 = Except.ok none
    ∧ Chain.getDevice timeoutCore chainA 0 = Except.ok none
    ∧ ChainMixerDevice.getSend constCore mixerA 0
        = Except.ok (some ⟨mixerA.ableton, Value.num 42⟩) :=
  ⟨(c8_getSend_getDevice_never_reject timeoutCore chainA mixerA 0).1 AblError.timeout rfl,
   (c8_getSend_getDevice_never_reject timeoutCore chainA mixerA 0).2.2.1
     AblError.timeout rfl,
   (c8_getSend_getDevice_never_reject constCore chainA mixerA 0).2.1 (Value.num 42) rfl⟩

/-- Claim C9: toJSON on Chain, DrumChain and ChainMixerDevice consults the
core not at all — its result is independent of the core oracle — and
returns exactly the fields of the stored raw snapshot, DrumChain adding
its three drum fields to the Chain fields. -/
theorem c9_toJSON_pure_snapshot (core core2 : Core) (c : Chain) (d : DrumChain)
    (m : ChainMixerDevice) :
    Chain.toJSON core c = Chain.toJSON core2 c
    ∧ DrumChain.toJSON core d = DrumChain.toJSON core2 d
    ∧ ChainMixerDevice.toJSON core m = ChainMixerDevice.toJSON core2 m
    ∧ Chain.toJSON core c = ⟨c.raw.id, c.raw.name, c.raw.color, c.raw.color_index,
        c.raw.is_auto_colored, c.raw.mute, c.raw.solo, c.raw.devices, c.raw.mixer_device⟩
    ∧ DrumChain.toJSON core d = ⟨Chain.toJSON core d.toChain, d.raw.choke_group,
        d.raw.out_of_key, d.raw.auto_select_on_receive⟩
    ∧ ChainMixerDevice.toJSON core m = ⟨m.raw.id, m.raw.canonical_parent,
        m.raw.chain_activator, m.raw.panning, m.raw.sends, m.raw.volume⟩ :=
  ⟨rfl, rfl, rfl, rfl, rfl, rfl⟩

/-- Claim C10: the constructors of Chain, DrumChain and ChainMixerDevice
only store the ableton reference, the raw snapshot and the path — the path
defaulting to the empty string when omitted — and the id getters
subsequently return raw.id. -/
theorem c10_constructors_store_only (a : Nat) (r : RawChain) (rd : RawDrumChain)
    (rm : RawChainMixerDevice) (p : String) :
    Chain.make a r (some p) = ⟨a, r, p⟩
    ∧ Chain.make a r none = ⟨a, r, ""⟩
    ∧ DrumChain.make a rd (some p) = ⟨a, rd, p⟩
    ∧ DrumChain.make a rd none = ⟨a, rd, ""⟩
    ∧ ChainMixerDevice.make a rm (some p) = ⟨a, rm, p⟩
    ∧ ChainMixerDevice.make a rm none = ⟨a, rm, ""⟩
    ∧ Chain.id (Chain.make a r (some p)) = r.id
    ∧ Chain.id (Chain.make a r none) = r.id
    ∧ ChainMixerDevice.id (ChainMixerDevice.make a rm (some p)) = rm.id
    ∧ ChainMixerDevice.id (ChainMixerDevice.make a rm none) = rm.id :=
  ⟨rfl, rfl, rfl, rfl, rfl, rfl, rfl, rfl, rfl, rfl⟩

end AbletonJs
